import Mathlib

/-!
Shallow embedding of the token-acquisition core of himmelblau-idm/rust-msal
(file src/auth.rs), together with theorems checking the natural-language
specification against it.

Modelling conventions:
* Machine integers are modelled as Nat; bytes are Nat values below 256.
* The HTTP transport (reqwest) is modelled as a script of responses consumed
  in order; every issued request is appended to a trace, so temporal claims
  about request sequences become claims about traces.
* Behaviour of external library crates that the source merely calls
  (serde deserialisation of whole response bodies, the TPM signer) is kept
  abstract as function parameters; everything the source file itself
  computes (form encoding, percent encoding, base64url decoding, the splitn
  segmentation, JSON rendering of the serialised PRT payloads, uuid parsing)
  is embedded executably.
-/

/-- One HTTP response as seen by the client: a status code and a body. -/
structure HttpResponse where
  status : Nat
  body : String
deriving DecidableEq

/-- One HTTP POST request as issued by the client. -/
structure Request where
  url : String
  headers : List (String × String)
  body : String
deriving DecidableEq

/-- The transport: a script of pending responses (none = transport failure)
and the trace of requests issued so far. Models the reqwest client. -/
structure Wire where
  script : List (Option HttpResponse)
  trace : List Request
deriving DecidableEq

/-- Issue a request: consume the next scripted response (an exhausted script
is a transport failure) and record the request in the trace. -/
def Wire.send (w : Wire) (r : Request) : Option HttpResponse × Wire :=
  match w.script with
  | [] => (none, { script := [], trace := w.trace ++ [r] })
  | s :: rest => (s, { script := rest, trace := w.trace ++ [r] })

/-- reqwest StatusCode.is_success: 2xx. -/
def isSuccessStatus (s : Nat) : Bool :=
  200 ≤ s && s ≤ 299

/-- Vec::join / slice join with a separator, as used for scope lists and
form bodies in auth.rs. -/
def joinSep (sep : String) : List String → String
  | [] => ""
  | [x] => x
  | x :: y :: ys => x ++ sep ++ joinSep sep (y :: ys)

/-- UTF-8 encoding of one character, bytes as Nat. -/
def utf8Bytes (c : Char) : List Nat :=
  let n := c.toNat
  if n < 128 then [n]
  else if n < 2048 then [192 + n / 64, 128 + n % 64]
  else if n < 65536 then [224 + n / 4096, 128 + (n / 64) % 64, 128 + n % 64]
  else [240 + n / 262144, 128 + (n / 4096) % 64, 128 + (n / 64) % 64, 128 + n % 64]

/-- Upper-case hex digit for a value below 16. -/
def hexDigitUpper (n : Nat) : Char :=
  if n < 10 then Char.ofNat (48 + n) else Char.ofNat (55 + n)

/-- Percent-encode one byte as used by the urlencoding crate. -/
def percentByte (b : Nat) : String :=
  String.mk [Char.ofNat 37, hexDigitUpper (b / 16), hexDigitUpper (b % 16)]

/-- urlencoding crate unreserved characters: ASCII alphanumerics and `-_.~`. -/
def isUrlUnreserved (c : Char) : Bool :=
  let n := c.toNat
  (48 ≤ n && n ≤ 57) || (65 ≤ n && n ≤ 90) || (97 ≤ n && n ≤ 122) ||
    n = 45 || n = 95 || n = 46 || n = 126

/-- urlencoding::encode - percent-encode every byte of every character that
is not unreserved. -/
def urlEncode (s : String) : String :=
  String.join (s.data.map (fun c =>
    if isUrlUnreserved c then String.mk [c]
    else String.join ((utf8Bytes c).map percentByte)))

/-- The `params.iter().map(k=url_encode(v)).join("&")` body builder common to
the standard grant flows in auth.rs. -/
def formEncode (params : List (String × String)) : String :=
  joinSep ("&") (params.map (fun kv => kv.1 ++ ("=") ++ urlEncode kv.2))

/-- The `params.iter().map(k=v).join("&")` body builder of the PRT exchange
in auth.rs, which does not percent-encode values. -/
def formJoinRaw (params : List (String × String)) : String :=
  joinSep ("&") (params.map (fun kv => kv.1 ++ ("=") ++ kv.2))

/-- serde_json Value, numbers restricted to integers (no float appears in any
payload this client handles). -/
inductive JsonValue where
  | null
  | bool (b : Bool)
  | num (n : Int)
  | str (s : String)
  | arr (xs : List JsonValue)
  | obj (fields : List (String × JsonValue))

/-- serde_json string escaping of one character (compact formatter). -/
def jsonEscapeChar (c : Char) : String :=
  let n := c.toNat
  if n = 34 then "\\\""
  else if n = 92 then "\\\\"
  else if n = 8 then "\\b"
  else if n = 12 then "\\f"
  else if n = 10 then "\\n"
  else if n = 13 then "\\r"
  else if n = 9 then "\\t"
  else if n < 32 then
    String.mk [Char.ofNat 92, Char.ofNat 117, Char.ofNat 48, Char.ofNat 48,
      Char.ofNat (if n / 16 < 10 then 48 + n / 16 else 87 + n / 16),
      Char.ofNat (if n % 16 < 10 then 48 + n % 16 else 87 + n % 16)]
  else String.mk [c]

/-- Concatenated escapes of a character list. -/
def jsonEscapeList : List Char → String
  | [] => ""
  | c :: cs => jsonEscapeChar c ++ jsonEscapeList cs

/-- serde_json rendering of a string literal, quotes included. -/
def jsonQuote (s : String) : String :=
  "\"" ++ jsonEscapeList s.data ++ "\""

mutual

/-- serde_json compact rendering (Value::to_string / serde_json::to_string). -/
def JsonValue.render : JsonValue → String
  | .null => "null"
  | .bool true => "true"
  | .bool false => "false"
  | .num n => toString n
  | .str s => jsonQuote s
  | .arr xs => "[" ++ JsonValue.renderList xs ++ "]"
  | .obj fs => "\x7b" ++ JsonValue.renderFields fs ++ "\x7d"

/-- Comma-separated rendering of array elements. -/
def JsonValue.renderList : List JsonValue → String
  | [] => ""
  | [v] => JsonValue.render v
  | v :: w :: vs => JsonValue.render v ++ (",") ++ JsonValue.renderList (w :: vs)

/-- Comma-separated rendering of object fields. -/
def JsonValue.renderFields : List (String × JsonValue) → String
  | [] => ""
  | [kv] => jsonQuote kv.1 ++ (":") ++ JsonValue.render kv.2
  | kv :: kw :: kvs =>
    jsonQuote kv.1 ++ (":") ++ JsonValue.render kv.2 ++ (",") ++
      JsonValue.renderFields (kw :: kvs)

end

/-- serde_json Value indexing `v[key]`: field of an object, Null when the key
is absent or the value is not an object. -/
def JsonValue.index (v : JsonValue) (key : String) : JsonValue :=
  match v with
  | .obj fields => ((fields.lookup key).getD JsonValue.null)
  | _ => JsonValue.null

/-- Rust str::trim_matches with a single char pattern: strip every leading and
trailing occurrence. -/
def rustTrimMatches (pat : Char) (s : String) : String :=
  String.mk (((s.data.dropWhile (fun c => c = pat)).reverse.dropWhile
    (fun c => c = pat)).reverse)

/-- base64 crate URL_SAFE alphabet value of one character. -/
def b64UrlVal (c : Char) : Option Nat :=
  let n := c.toNat
  if 65 ≤ n && n ≤ 90 then some (n - 65)
  else if 97 ≤ n && n ≤ 122 then some (n - 97 + 26)
  else if 48 ≤ n && n ≤ 57 then some (n - 48 + 52)
  else if n = 45 then some 62
  else if n = 95 then some 63
  else none

/-- Reassemble 6-bit values into bytes; a trailing group of one value is
invalid, and non-zero trailing bits are rejected, as in the base64 crate
default engine config. -/
def b64DecodeVals : List Nat → Option (List Nat)
  | [] => some []
  | [_] => none
  | [a, b] => if b % 16 = 0 then some [a * 4 + b / 16] else none
  | [a, b, c] =>
    if c % 4 = 0 then some [a * 4 + b / 16, (b % 16) * 16 + c / 4] else none
  | a :: b :: c :: d :: rest =>
    (b64DecodeVals rest).map (fun tl =>
      (a * 4 + b / 16) :: ((b % 16) * 16 + c / 4) :: ((c % 4) * 64 + d) :: tl)

/-- base64::engine::general_purpose::URL_SAFE_NO_PAD decode, bytes as Nat. -/
def b64UrlDecode (s : String) : Option (List Nat) := do
  let vals ← s.data.mapM b64UrlVal
  b64DecodeVals vals

/-- Hex digit value, both cases, as accepted by the uuid crate. -/
def hexVal (c : Char) : Option Nat :=
  let n := c.toNat
  if 48 ≤ n && n ≤ 57 then some (n - 48)
  else if 97 ≤ n && n ≤ 102 then some (n - 97 + 10)
  else if 65 ≤ n && n ≤ 70 then some (n - 65 + 10)
  else none

/-- Consume exactly n hex digits, returning their big-endian value and the
rest of the input. -/
def takeHex : Nat → List Char → Option (Nat × List Char)
  | 0, cs => some (0, cs)
  | _ + 1, [] => none
  | n + 1, c :: cs =>
    match hexVal c with
    | none => none
    | some d =>
      match takeHex n cs with
      | none => none
      | some (v, rest) => some (d * 16 ^ n + v, rest)

/-- Consume one expected separator character. -/
def expectChar (x : Char) : List Char → Option (List Char)
  | [] => none
  | c :: cs => if c = x then some cs else none

/-- uuid crate hyphenated format: 8-4-4-4-12 hex digits. -/
def uuidParseHyphenated (cs : List Char) : Option Nat :=
  match takeHex 8 cs with
  | none => none
  | some (a, cs1) =>
    match expectChar (Char.ofNat 45) cs1 with
    | none => none
    | some cs2 =>
      match takeHex 4 cs2 with
      | none => none
      | some (b, cs3) =>
        match expectChar (Char.ofNat 45) cs3 with
        | none => none
        | some cs4 =>
          match takeHex 4 cs4 with
          | none => none
          | some (c, cs5) =>
            match expectChar (Char.ofNat 45) cs5 with
            | none => none
            | some cs6 =>
              match takeHex 4 cs6 with
              | none => none
              | some (d, cs7) =>
                match expectChar (Char.ofNat 45) cs7 with
                | none => none
                | some cs8 =>
                  match takeHex 12 cs8 with
                  | none => none
                  | some (e, cs9) =>
                    if cs9 = [] then
                      some (a * 2 ^ 96 + b * 2 ^ 80 + c * 2 ^ 64 + d * 2 ^ 48 + e)
                    else none

/-- uuid crate simple format: 32 hex digits. -/
def uuidParseSimple (cs : List Char) : Option Nat :=
  match takeHex 32 cs with
  | none => none
  | some (v, rest) => if rest = [] then some v else none

/-- uuid crate braced format: a hyphenated uuid between literal braces. -/
def uuidParseBraced (cs : List Char) : Option Nat :=
  match cs with
  | [] => none
  | c :: rest =>
    if c.toNat = 123 then
      match rest.getLast? with
      | none => none
      | some d =>
        if d.toNat = 125 then uuidParseHyphenated rest.dropLast else none
    else none

/-- uuid crate urn format: the prefix urn:uuid: then a hyphenated uuid. -/
def uuidParseUrn (cs : List Char) : Option Nat :=
  if cs.take 9 = ("urn:uuid:").data then uuidParseHyphenated (cs.drop 9)
  else none

/-- Uuid::parse_str of the uuid crate, dispatching on input length; the
value is the 128-bit integer of the uuid. -/
def Uuid.parse_str (s : String) : Option Nat :=
  let cs := s.data
  if cs.length = 32 then uuidParseSimple cs
  else if cs.length = 36 then uuidParseHyphenated cs
  else if cs.length = 38 then uuidParseBraced cs
  else if cs.length = 45 then uuidParseUrn cs
  else none

/-- Split a character list at the first occurrence of sep: the part before,
and (when sep occurs) the part after. -/
def breakAt (sep : Char) : List Char → List Char × Option (List Char)
  | [] => ([], none)
  | c :: cs =>
    if c = sep then ([], some cs)
    else
      let r := breakAt sep cs
      (c :: r.1, r.2)

/-- Rust str::splitn(n, sep) collected to a list: at most n pieces, the last
piece keeps any remaining separators. -/
def splitnChars : Nat → Char → List Char → List String
  | 0, _, _ => []
  | 1, _, cs => [String.mk cs]
  | n + 2, sep, cs =>
    match breakAt sep cs with
    | (pre, none) => [String.mk pre]
    | (pre, some post) => String.mk pre :: splitnChars (n + 1) sep post

/-- Rust String::splitn over a string. -/
def rustSplitn (n : Nat) (sep : Char) (s : String) : List String :=
  splitnChars n sep s.data

/-- RFC8628 3.2 device authorization response (auth.rs struct). -/
structure DeviceAuthorizationResponse where
  device_code : String
  user_code : String
  verification_uri : String
  verification_uri_complete : Option String
  expires_in : Nat
  interval : Option Nat
  message : Option String
deriving DecidableEq

/-- Decoded id_token claims (auth.rs struct IdToken). -/
structure IdToken where
  name : String
  oid : String
  preferred_username : String
  puid : Option String
  tenant_region_scope : Option String
  tid : String
deriving DecidableEq

/-- Decoded client_info pair (auth.rs struct ClientInfo); uuids are their
128-bit integer values. -/
structure ClientInfo where
  uid : Option Nat
  utid : Option Nat
deriving DecidableEq

/-- Successful token response (auth.rs struct UserToken). -/
structure UserToken where
  token_type : String
  scope : String
  expires_in : Nat
  ext_expires_in : Nat
  access_token : String
  refresh_token : String
  id_token : IdToken
  client_info : ClientInfo
deriving DecidableEq

/-- PRT exchange response (auth.rs struct PrimaryRefreshToken). -/
structure PrimaryRefreshToken where
  refresh_token : String
  refresh_token_expires_in : Nat
  session_key_jwe : String
  id_token : String
deriving DecidableEq

/-- Modelled from the spec: the structured failure payload `ErrorResponse`
lives in src/error.rs, which is not part of the provided sources; the spec
says its fields are opaque to this layer beyond being surfaced to the
caller, so it is modelled as an opaque value. -/
structure ErrorResponse where
  raw : String
deriving DecidableEq

/-- Error kinds of MsalError. The variant names are exactly the ones used in
src/auth.rs (RequestFailed, InvalidJson, AcquireTokenFailed, TPMFail); the
enum itself is declared in src/error.rs, which is not part of the provided
sources, so the carried data follows the spec (section 7). -/
inductive MsalError where
  | RequestFailed (msg : String)
  | InvalidJson (msg : String)
  | AcquireTokenFailed (resp : ErrorResponse)
  | TPMFail (msg : String)
deriving DecidableEq

/-- decode_id_token of auth.rs. The segmentation, the required-payload check
and the base64url decode are embedded; the final steps String::from_utf8 and
serde_json::from_str into IdToken are external library behaviour, folded into
the parameter `idTokenFromBytes`. -/
def decode_id_token (idTokenFromBytes : List Nat → Option IdToken)
    (s : String) : Except String IdToken :=
  let siter := rustSplitn 3 (Char.ofNat 46) s
  match siter with
  | [] => .error ("Failed parsing id_token header")
  | _ :: rest =>
    match rest with
    | [] => .error ("Failed parsing id_token payload")
    | payload_str :: _ =>
      match b64UrlDecode payload_str with
      | none => .error ("Failed parsing id_token")
      | some bytes =>
        match idTokenFromBytes bytes with
        | none => .error ("Failed parsing id_token from json")
        | some payload => .ok payload

/-- decode_client_info of auth.rs. The base64url decode, the Value indexing,
the Display rendering, trim_matches and Uuid::parse_str are embedded; the
steps String::from_utf8 and serde_json::from_str into Value are external
library behaviour, folded into the parameter `jsonFromBytes`. -/
def decode_client_info (jsonFromBytes : List Nat → Option JsonValue)
    (s : String) : Except String ClientInfo :=
  match b64UrlDecode s with
  | none => .error ("Failed parsing client_info")
  | some bytes =>
    match jsonFromBytes bytes with
    | none => .error ("Failed parsing client_info")
    | some client_info =>
      let uid_str := (client_info.index ("uid")).render
      match Uuid.parse_str (rustTrimMatches (Char.ofNat 34) uid_str) with
      | none => .error ("Failed parsing client_info uid")
      | some uid =>
        let utid_str := (client_info.index ("utid")).render
        match Uuid.parse_str (rustTrimMatches (Char.ofNat 34) utid_str) with
        | none => .error ("Failed parsing client_info utid")
        | some utid => .ok { uid := some uid, utid := some utid }

/-- Fixed broker application identifier (auth.rs BROKER_CLIENT_IDENT). -/
def BROKER_CLIENT_IDENT : String := "38aa3b87-a06d-4817-b275-7a316988d93b"

/-- Fixed device-registration-service application id (auth.rs DRS_APP_ID). -/
def DRS_APP_ID : String := "01cb2876-7ebd-4aa4-9cc9-d28bd4d359a9"

/-- Result of the os_release crate OsRelease::new() when it succeeds; the
two fields auth.rs reads. -/
structure OsRelease where
  pretty_name : String
  version_id : String
deriving DecidableEq

/-- Unsigned PRT payload for the username/password assertion
(auth.rs struct UsernamePasswordAuthenticationPayload, field order as
declared, which is the serde_json serialisation order). -/
structure UsernamePasswordAuthenticationPayload where
  client_id : String
  request_nonce : String
  scope : String
  win_ver : Option String
  grant_type : String
  username : String
  password : String
deriving DecidableEq

/-- UsernamePasswordAuthenticationPayload::new; the OsRelease::new() call is
an external collaborator, passed in as `os_release`. -/
def UsernamePasswordAuthenticationPayload.new (username password request_nonce : String)
    (os_release : Option OsRelease) : UsernamePasswordAuthenticationPayload :=
  { client_id := BROKER_CLIENT_IDENT
    request_nonce := request_nonce
    scope := "openid aza ugs"
    win_ver := os_release.map (fun o => o.pretty_name ++ (" ") ++ o.version_id)
    grant_type := "password"
    username := username
    password := password }

/-- The serde Serialize derive for UsernamePasswordAuthenticationPayload:
fields in declaration order, an Option field serialised as null when None. -/
def UsernamePasswordAuthenticationPayload.toJson
    (p : UsernamePasswordAuthenticationPayload) : JsonValue :=
  .obj [(("client_id"), .str p.client_id),
    (("request_nonce"), .str p.request_nonce),
    (("scope"), .str p.scope),
    (("win_ver"), match p.win_ver with | none => .null | some v => .str v),
    (("grant_type"), .str p.grant_type),
    (("username"), .str p.username),
    (("password"), .str p.password)]

/-- Unsigned PRT payload for the refresh-token assertion
(auth.rs struct RefreshTokenAuthenticationPayload). -/
structure RefreshTokenAuthenticationPayload where
  client_id : String
  request_nonce : String
  scope : String
  win_ver : Option String
  grant_type : String
  refresh_token : String
deriving DecidableEq

/-- RefreshTokenAuthenticationPayload::new. -/
def RefreshTokenAuthenticationPayload.new (refresh_token request_nonce : String)
    (os_release : Option OsRelease) : RefreshTokenAuthenticationPayload :=
  { client_id := BROKER_CLIENT_IDENT
    request_nonce := request_nonce
    scope := "openid aza ugs"
    win_ver := os_release.map (fun o => o.pretty_name ++ (" ") ++ o.version_id)
    grant_type := "refresh_token"
    refresh_token := refresh_token }

/-- The serde Serialize derive for RefreshTokenAuthenticationPayload. -/
def RefreshTokenAuthenticationPayload.toJson
    (p : RefreshTokenAuthenticationPayload) : JsonValue :=
  .obj [(("client_id"), .str p.client_id),
    (("request_nonce"), .str p.request_nonce),
    (("scope"), .str p.scope),
    (("win_ver"), match p.win_ver with | none => .null | some v => .str v),
    (("grant_type"), .str p.grant_type),
    (("refresh_token"), .str p.refresh_token)]

/-- An unsigned JWT-shaped token: the serialised payload bytes (kept as the
string they spell) and the typ marker, as built by JwsBuilder in auth.rs. -/
structure Jws where
  payload : String
  typ : Option String
deriving DecidableEq

/-- The hardware signing collaborator: whether JwsTpmSigner::new succeeds for
the given key handle, and the signing function (none = signing failure). -/
structure Hsm where
  load_ok : Bool
  sign : Jws → Option String

/-- External serde deserialisation of whole response bodies (reqwest
Response::json::<T>() for each T used in auth.rs). Kept abstract: the shapes
of these parses live in the serde derives, not in the control flow under
proof. parseNonce returns the Nonce field content directly. -/
structure Codec where
  parseErrorResponse : String → Option ErrorResponse
  parseUserToken : String → Option UserToken
  parseDeviceAuthorizationResponse : String → Option DeviceAuthorizationResponse
  parseNonce : String → Option String
  parsePrimaryRefreshToken : String → Option PrimaryRefreshToken

/-- auth.rs struct PublicClientApplication (minus the reqwest client, which
is the Wire). -/
structure PublicClientApplication where
  client_id : String
  tenant_id : String
  authority_host : String
deriving DecidableEq

/-- Content-Type header set by the standard flows. -/
def contentTypeFormHeader : String × String :=
  (("Content-Type"), ("application/x-www-form-urlencoded"))

/-- Accept header set by the standard flows. -/
def acceptJsonHeader : String × String :=
  (("Accept"), ("application/json"))

/-- acquire_token_by_username_password of auth.rs. -/
def PublicClientApplication.acquire_token_by_username_password
    (app : PublicClientApplication) (codec : Codec)
    (username password : String) (scopes : List String) (w : Wire) :
    Except MsalError UserToken × Wire :=
  let all_scopes := ["openid", "profile", "offline_access"] ++ scopes
  let scopes_str := joinSep (" ") all_scopes
  let params := [(("client_id"), app.client_id), (("scope"), scopes_str),
    (("username"), username), (("password"), password),
    (("grant_type"), ("password")), (("client_info"), ("1"))]
  let payload := formEncode params
  let req : Request :=
    { url := "https://" ++ app.authority_host ++ "/" ++ app.tenant_id ++
        "/oauth2/v2.0/token",
      headers := [contentTypeFormHeader, acceptJsonHeader],
      body := payload }
  match w.send req with
  | (none, w2) => (.error (.RequestFailed ("request failed")), w2)
  | (some resp, w2) =>
    if isSuccessStatus resp.status then
      match codec.parseUserToken resp.body with
      | none => (.error (.InvalidJson ("invalid success body")), w2)
      | some token => (.ok token, w2)
    else
      match codec.parseErrorResponse resp.body with
      | none => (.error (.InvalidJson ("invalid error body")), w2)
      | some json_resp => (.error (.AcquireTokenFailed json_resp), w2)

/-- acquire_token_for_device_enrollment of auth.rs: delegate to the password
grant with the single fixed DRS scope. -/
def PublicClientApplication.acquire_token_for_device_enrollment
    (app : PublicClientApplication) (codec : Codec)
    (username password : String) (w : Wire) :
    Except MsalError UserToken × Wire :=
  let drs_scope := DRS_APP_ID ++ ("/.default")
  app.acquire_token_by_username_password codec username password [drs_scope] w

/-- initiate_device_flow of auth.rs. -/
def PublicClientApplication.initiate_device_flow
    (app : PublicClientApplication) (codec : Codec)
    (scopes : List String) (w : Wire) :
    Except MsalError DeviceAuthorizationResponse × Wire :=
  let all_scopes := ["openid", "profile", "offline_access"] ++ scopes
  let scopes_str := joinSep (" ") all_scopes
  let params := [(("client_id"), app.client_id), (("scope"), scopes_str)]
  let payload := formEncode params
  let req : Request :=
    { url := "https://" ++ app.authority_host ++ "/" ++ app.tenant_id ++
        "/oauth2/v2.0/devicecode",
      headers := [contentTypeFormHeader, acceptJsonHeader],
      body := payload }
  match w.send req with
  | (none, w2) => (.error (.RequestFailed ("request failed")), w2)
  | (some resp, w2) =>
    if isSuccessStatus resp.status then
      match codec.parseDeviceAuthorizationResponse resp.body with
      | none => (.error (.InvalidJson ("invalid success body")), w2)
      | some json_resp => (.ok json_resp, w2)
    else
      match codec.parseErrorResponse resp.body with
      | none => (.error (.InvalidJson ("invalid error body")), w2)
      | some json_resp => (.error (.AcquireTokenFailed json_resp), w2)

/-- acquire_token_by_device_flow of auth.rs. -/
def PublicClientApplication.acquire_token_by_device_flow
    (app : PublicClientApplication) (codec : Codec)
    (flow : DeviceAuthorizationResponse) (w : Wire) :
    Except MsalError UserToken × Wire :=
  let params := [(("client_id"), app.client_id),
    (("grant_type"), ("urn:ietf:params:oauth:grant-type:device_code")),
    (("device_code"), flow.device_code)]
  let payload := formEncode params
  let req : Request :=
    { url := "https://" ++ app.authority_host ++ "/" ++ app.tenant_id ++
        "/oauth2/v2.0/token",
      headers := [contentTypeFormHeader, acceptJsonHeader],
      body := payload }
  match w.send req with
  | (none, w2) => (.error (.RequestFailed ("request failed")), w2)
  | (some resp, w2) =>
    if isSuccessStatus resp.status then
      match codec.parseUserToken resp.body with
      | none => (.error (.InvalidJson ("invalid success body")), w2)
      | some token => (.ok token, w2)
    else
      match codec.parseErrorResponse resp.body with
      | none => (.error (.InvalidJson ("invalid error body")), w2)
      | some json_resp => (.error (.AcquireTokenFailed json_resp), w2)

/-- acquire_token_silent of auth.rs. -/
def PublicClientApplication.acquire_token_silent
    (app : PublicClientApplication) (codec : Codec)
    (scopes : List String) (refresh_token : String) (w : Wire) :
    Except MsalError UserToken × Wire :=
  let all_scopes := ["openid", "profile", "offline_access"] ++ scopes
  let scopes_str := joinSep (" ") all_scopes
  let params := [(("client_id"), app.client_id), (("scope"), scopes_str),
    (("grant_type"), ("refresh_token")), (("refresh_token"), refresh_token),
    (("client_info"), ("1"))]
  let payload := formEncode params
  let req : Request :=
    { url := "https://" ++ app.authority_host ++ "/" ++ app.tenant_id ++
        "/oauth2/v2.0/token",
      headers := [contentTypeFormHeader, acceptJsonHeader],
      body := payload }
  match w.send req with
  | (none, w2) => (.error (.RequestFailed ("request failed")), w2)
  | (some resp, w2) =>
    if isSuccessStatus resp.status then
      match codec.parseUserToken resp.body with
      | none => (.error (.InvalidJson ("invalid success body")), w2)
      | some token => (.ok token, w2)
    else
      match codec.parseErrorResponse resp.body with
      | none => (.error (.InvalidJson ("invalid error body")), w2)
      | some json_resp => (.error (.AcquireTokenFailed json_resp), w2)

/-- request_nonce of auth.rs: POST grant_type=srv_challenge to the untenanted
common endpoint; note the source sets no headers on this request and writes
the body as a fixed string. -/
def PublicClientApplication.request_nonce
    (app : PublicClientApplication) (codec : Codec) (w : Wire) :
    Except MsalError String × Wire :=
  let req : Request :=
    { url := "https://" ++ app.authority_host ++ "/common/oauth2/token",
      headers := [],
      body := "grant_type=srv_challenge" }
  match w.send req with
  | (none, w2) => (.error (.RequestFailed ("request failed")), w2)
  | (some resp, w2) =>
    if isSuccessStatus resp.status then
      match codec.parseNonce resp.body with
      | none => (.error (.InvalidJson ("invalid success body")), w2)
      | some json_resp => (.ok json_resp, w2)
    else
      match codec.parseErrorResponse resp.body with
      | none => (.error (.InvalidJson ("invalid error body")), w2)
      | some json_resp => (.error (.AcquireTokenFailed json_resp), w2)

/-- acquire_user_prt_jwt of auth.rs: load the TPM signer, sign the unsigned
token, and POST the signed token to the tenanted legacy endpoint; the source
sets only the Content-Type header here and joins the params without
percent-encoding. The signing log records each jws handed to the signer. -/
def PublicClientApplication.acquire_user_prt_jwt
    (app : PublicClientApplication) (codec : Codec) (hsm : Hsm)
    (jwt : Jws) (w : Wire) (signLog : List Jws) :
    Except MsalError PrimaryRefreshToken × Wire × List Jws :=
  if hsm.load_ok then
    let signLog2 := signLog ++ [jwt]
    match hsm.sign jwt with
    | none => (.error (.TPMFail ("Failed signing jwk")), w, signLog2)
    | some signed_jwt =>
      let params := [(("windows_api_version"), ("2.0")),
        (("grant_type"), ("urn:ietf:params:oauth:grant-type:jwt-bearer")),
        (("request"), signed_jwt),
        (("client_info"), ("1")),
        (("tgt"), ("true"))]
      let payload := formJoinRaw params
      let req : Request :=
        { url := "https://" ++ app.authority_host ++ "/" ++ app.tenant_id ++
            "/oauth2/token",
          headers := [contentTypeFormHeader],
          body := payload }
      match w.send req with
      | (none, w2) => (.error (.RequestFailed ("request failed")), w2, signLog2)
      | (some resp, w2) =>
        if isSuccessStatus resp.status then
          match codec.parsePrimaryRefreshToken resp.body with
          | none => (.error (.InvalidJson ("invalid success body")), w2, signLog2)
          | some json_resp => (.ok json_resp, w2, signLog2)
        else
          match codec.parseErrorResponse resp.body with
          | none => (.error (.InvalidJson ("invalid error body")), w2, signLog2)
          | some json_resp => (.error (.AcquireTokenFailed json_resp), w2, signLog2)
  else (.error (.TPMFail ("Failed loading tpm signer")), w, signLog)

/-- acquire_user_prt_by_username_password of auth.rs: fetch a fresh nonce,
build and serialise the username/password payload, wrap it with typ JWT and
delegate to the jwt-bearer exchange. serde_json::to_vec of this struct cannot
fail (its InvalidJson arm is dead code), so serialisation is total here. -/
def PublicClientApplication.acquire_user_prt_by_username_password
    (app : PublicClientApplication) (codec : Codec) (hsm : Hsm)
    (os_release : Option OsRelease) (username password : String)
    (w : Wire) (signLog : List Jws) :
    Except MsalError PrimaryRefreshToken × Wire × List Jws :=
  match app.request_nonce codec w with
  | (.error e, w2) => (.error e, w2, signLog)
  | (.ok nonce, w2) =>
    let jwt : Jws :=
      { payload := (UsernamePasswordAuthenticationPayload.new
          username password nonce os_release).toJson.render,
        typ := some ("JWT") }
    app.acquire_user_prt_jwt codec hsm jwt w2 signLog

/-- acquire_user_prt_silent of auth.rs: fetch a fresh nonce, build and
serialise the refresh-token payload, wrap it with typ JWT and delegate to the
jwt-bearer exchange. -/
def PublicClientApplication.acquire_user_prt_silent
    (app : PublicClientApplication) (codec : Codec) (hsm : Hsm)
    (os_release : Option OsRelease) (refresh_token : String)
    (w : Wire) (signLog : List Jws) :
    Except MsalError PrimaryRefreshToken × Wire × List Jws :=
  match app.request_nonce codec w with
  | (.error e, w2) => (.error e, w2, signLog)
  | (.ok nonce, w2) =>
    let jwt : Jws :=
      { payload := (RefreshTokenAuthenticationPayload.new
          refresh_token nonce os_release).toJson.render,
        typ := some ("JWT") }
    app.acquire_user_prt_jwt codec hsm jwt w2 signLog

/-- C9: acquire_token_for_device_enrollment(username, password) is
observationally equal to acquire_token_by_username_password(username,
password, [01cb2876-7ebd-4aa4-9cc9-d28bd4d359a9/.default]) for every
username, password, codec and wire state: a pure delegation adding the single
fixed DRS scope and nothing else. -/
theorem c9_device_enrollment_is_password_grant_with_drs_scope
    (app : PublicClientApplication) (codec : Codec)
    (username password : String) (w : Wire) :
    app.acquire_token_for_device_enrollment codec username password w =
      app.acquire_token_by_username_password codec username password
        [("01cb2876-7ebd-4aa4-9cc9-d28bd4d359a9/.default")] w := rfl

/-- The request issued by the password grant. -/
def passwordGrantRequest (app : PublicClientApplication)
    (username password : String) (scopes : List String) : Request :=
  { url := "https://" ++ app.authority_host ++ "/" ++ app.tenant_id ++
      "/oauth2/v2.0/token",
    headers := [contentTypeFormHeader, acceptJsonHeader],
    body := formEncode [(("client_id"), app.client_id),
      (("scope"), joinSep (" ") (["openid", "profile", "offline_access"] ++ scopes)),
      (("username"), username), (("password"), password),
      (("grant_type"), ("password")), (("client_info"), ("1"))] }

/-- The request issued by device-flow initiation. -/
def deviceInitRequest (app : PublicClientApplication)
    (scopes : List String) : Request :=
  { url := "https://" ++ app.authority_host ++ "/" ++ app.tenant_id ++
      "/oauth2/v2.0/devicecode",
    headers := [contentTypeFormHeader, acceptJsonHeader],
    body := formEncode [(("client_id"), app.client_id),
      (("scope"), joinSep (" ") (["openid", "profile", "offline_access"] ++ scopes))] }

/-- The request issued by the device-code polling exchange. -/
def deviceCodeTokenRequest (app : PublicClientApplication)
    (flow : DeviceAuthorizationResponse) : Request :=
  { url := "https://" ++ app.authority_host ++ "/" ++ app.tenant_id ++
      "/oauth2/v2.0/token",
    headers := [contentTypeFormHeader, acceptJsonHeader],
    body := formEncode [(("client_id"), app.client_id),
      (("grant_type"), ("urn:ietf:params:oauth:grant-type:device_code")),
      (("device_code"), flow.device_code)] }

/-- The request issued by the silent/refresh grant. -/
def silentGrantRequest (app : PublicClientApplication)
    (scopes : List String) (refresh_token : String) : Request :=
  { url := "https://" ++ app.authority_host ++ "/" ++ app.tenant_id ++
      "/oauth2/v2.0/token",
    headers := [contentTypeFormHeader, acceptJsonHeader],
    body := formEncode [(("client_id"), app.client_id),
      (("scope"), joinSep (" ") (["openid", "profile", "offline_access"] ++ scopes)),
      (("grant_type"), ("refresh_token")), (("refresh_token"), refresh_token),
      (("client_info"), ("1"))] }

/-- The request issued by the nonce challenge. -/
def nonceChallengeRequest (app : PublicClientApplication) : Request :=
  { url := "https://" ++ app.authority_host ++ "/common/oauth2/token",
    headers := [],
    body := "grant_type=srv_challenge" }

/-- The request issued by the PRT jwt-bearer exchange for a given signed
token string. -/
def prtExchangeRequest (app : PublicClientApplication)
    (signed_jwt : String) : Request :=
  { url := "https://" ++ app.authority_host ++ "/" ++ app.tenant_id ++
      "/oauth2/token",
    headers := [contentTypeFormHeader],
    body := formJoinRaw [(("windows_api_version"), ("2.0")),
      (("grant_type"), ("urn:ietf:params:oauth:grant-type:jwt-bearer")),
      (("request"), signed_jwt),
      (("client_info"), ("1")),
      (("tgt"), ("true"))] }

theorem acquire_token_by_username_password_wire (app : PublicClientApplication)
    (codec : Codec) (username password : String) (scopes : List String)
    (w : Wire) :
    (app.acquire_token_by_username_password codec username password scopes w).2 =
      { script := w.script.tail,
        trace := w.trace ++ [passwordGrantRequest app username password scopes] } := by
  unfold PublicClientApplication.acquire_token_by_username_password Wire.send
  rcases w with ⟨script, trace⟩
  rcases script with _ | ⟨s, rest⟩
  · rfl
  · rcases s with _ | resp
    · rfl
    · dsimp only
      split
      · split <;> rfl
      · split <;> rfl

theorem initiate_device_flow_wire (app : PublicClientApplication)
    (codec : Codec) (scopes : List String) (w : Wire) :
    (app.initiate_device_flow codec scopes w).2 =
      { script := w.script.tail,
        trace := w.trace ++ [deviceInitRequest app scopes] } := by
  unfold PublicClientApplication.initiate_device_flow Wire.send
  rcases w with ⟨script, trace⟩
  rcases script with _ | ⟨s, rest⟩
  · rfl
  · rcases s with _ | resp
    · rfl
    · dsimp only
      split
      · split <;> rfl
      · split <;> rfl

theorem acquire_token_by_device_flow_wire (app : PublicClientApplication)
    (codec : Codec) (flow : DeviceAuthorizationResponse) (w : Wire) :
    (app.acquire_token_by_device_flow codec flow w).2 =
      { script := w.script.tail,
        trace := w.trace ++ [deviceCodeTokenRequest app flow] } := by
  unfold PublicClientApplication.acquire_token_by_device_flow Wire.send
  rcases w with ⟨script, trace⟩
  rcases script with _ | ⟨s, rest⟩
  · rfl
  · rcases s with _ | resp
    · rfl
    · dsimp only
      split
      · split <;> rfl
      · split <;> rfl

theorem acquire_token_silent_wire (app : PublicClientApplication)
    (codec : Codec) (scopes : List String) (refresh_token : String)
    (w : Wire) :
    (app.acquire_token_silent codec scopes refresh_token w).2 =
      { script := w.script.tail,
        trace := w.trace ++ [silentGrantRequest app scopes refresh_token] } := by
  unfold PublicClientApplication.acquire_token_silent Wire.send
  rcases w with ⟨script, trace⟩
  rcases script with _ | ⟨s, rest⟩
  · rfl
  · rcases s with _ | resp
    · rfl
    · dsimp only
      split
      · split <;> rfl
      · split <;> rfl

theorem request_nonce_wire (app : PublicClientApplication)
    (codec : Codec) (w : Wire) :
    (app.request_nonce codec w).2 =
      { script := w.script.tail,
        trace := w.trace ++ [nonceChallengeRequest app] } := by
  unfold PublicClientApplication.request_nonce Wire.send
  rcases w with ⟨script, trace⟩
  rcases script with _ | ⟨s, rest⟩
  · rfl
  · rcases s with _ | resp
    · rfl
    · dsimp only
      split
      · split <;> rfl
      · split <;> rfl

/-- C8: the device-code polling exchange issues exactly one token request,
carrying the device_code grant type and the device code stored in the
supplied DeviceAuthorizationResponse, and it does not consume or mutate that
response: an immediately repeated poll with the same response issues the
identical request again. -/
theorem c8_device_code_poll_single_request_and_reusable
    (app : PublicClientApplication) (codec : Codec)
    (flow : DeviceAuthorizationResponse) (w : Wire) :
    (app.acquire_token_by_device_flow codec flow w).2.trace =
        w.trace ++ [deviceCodeTokenRequest app flow] ∧
      (app.acquire_token_by_device_flow codec flow
          (app.acquire_token_by_device_flow codec flow w).2).2.trace =
        w.trace ++ [deviceCodeTokenRequest app flow, deviceCodeTokenRequest app flow] ∧
      (deviceCodeTokenRequest app flow).body =
        formEncode [(("client_id"), app.client_id),
          (("grant_type"), ("urn:ietf:params:oauth:grant-type:device_code")),
          (("device_code"), flow.device_code)] := by
  refine ⟨by rw [acquire_token_by_device_flow_wire], ?_, rfl⟩
  rw [acquire_token_by_device_flow_wire, acquire_token_by_device_flow_wire]
  simp

/-- C6: for every caller-supplied scope list, the password grant, the
silent/refresh grant and device-flow initiation each transmit a scope
parameter that is exactly the space-separated concatenation of openid,
profile, offline_access followed by the caller scopes in their given order
(no deduplication, no reordering), inside the single request each flow
issues. -/
theorem c6_scope_parameter_is_ordered_concatenation
    (app : PublicClientApplication) (codec : Codec)
    (username password refresh_token : String) (scopes : List String)
    (w : Wire) :
    ((app.acquire_token_by_username_password codec username password scopes w).2.trace =
        w.trace ++ [passwordGrantRequest app username password scopes]) ∧
      ((app.initiate_device_flow codec scopes w).2.trace =
        w.trace ++ [deviceInitRequest app scopes]) ∧
      ((app.acquire_token_silent codec scopes refresh_token w).2.trace =
        w.trace ++ [silentGrantRequest app scopes refresh_token]) ∧
      (passwordGrantRequest app username password scopes).body =
        formEncode [(("client_id"), app.client_id),
          (("scope"), joinSep (" ") (("openid") :: ("profile") :: ("offline_access") :: scopes)),
          (("username"), username), (("password"), password),
          (("grant_type"), ("password")), (("client_info"), ("1"))] ∧
      (deviceInitRequest app scopes).body =
        formEncode [(("client_id"), app.client_id),
          (("scope"), joinSep (" ") (("openid") :: ("profile") :: ("offline_access") :: scopes))] ∧
      (silentGrantRequest app scopes refresh_token).body =
        formEncode [(("client_id"), app.client_id),
          (("scope"), joinSep (" ") (("openid") :: ("profile") :: ("offline_access") :: scopes)),
          (("grant_type"), ("refresh_token")), (("refresh_token"), refresh_token),
          (("client_info"), ("1"))] :=
  ⟨congrArg Wire.trace
      (acquire_token_by_username_password_wire app codec username password scopes w),
    congrArg Wire.trace (initiate_device_flow_wire app codec scopes w),
    congrArg Wire.trace (acquire_token_silent_wire app codec scopes refresh_token w),
    rfl, rfl, rfl⟩

/-- C2: on every non-2xx response, each grant flow and each PRT step returns
the acquisition-failed error carrying the parsed ErrorResponse when the body
parses as that JSON, and the invalid-response error when it does not; in
either case the result is an error, never a success value. -/
theorem c2_non_success_classification (app : PublicClientApplication)
    (codec : Codec) (username password refresh_token : String)
    (scopes : List String) (flow : DeviceAuthorizationResponse)
    (hsm : Hsm) (jwt : Jws) (signed_jwt : String)
    (resp : HttpResponse) (rest : List (Option HttpResponse))
    (tr : List Request) (signLog : List Jws)
    (h : isSuccessStatus resp.status = false)
    (hload : hsm.load_ok = true)
    (hsign : hsm.sign jwt = some signed_jwt) :
    ((app.acquire_token_by_username_password codec username password scopes
        { script := some resp :: rest, trace := tr }).1 =
      .error (match codec.parseErrorResponse resp.body with
        | some e => .AcquireTokenFailed e
        | none => .InvalidJson ("invalid error body"))) ∧
    ((app.initiate_device_flow codec scopes
        { script := some resp :: rest, trace := tr }).1 =
      .error (match codec.parseErrorResponse resp.body with
        | some e => .AcquireTokenFailed e
        | none => .InvalidJson ("invalid error body"))) ∧
    ((app.acquire_token_by_device_flow codec flow
        { script := some resp :: rest, trace := tr }).1 =
      .error (match codec.parseErrorResponse resp.body with
        | some e => .AcquireTokenFailed e
        | none => .InvalidJson ("invalid error body"))) ∧
    ((app.acquire_token_silent codec scopes refresh_token
        { script := some resp :: rest, trace := tr }).1 =
      .error (match codec.parseErrorResponse resp.body with
        | some e => .AcquireTokenFailed e
        | none => .InvalidJson ("invalid error body"))) ∧
    ((app.request_nonce codec
        { script := some resp :: rest, trace := tr }).1 =
      .error (match codec.parseErrorResponse resp.body with
        | some e => .AcquireTokenFailed e
        | none => .InvalidJson ("invalid error body"))) ∧
    ((app.acquire_user_prt_jwt codec hsm jwt
        { script := some resp :: rest, trace := tr } signLog).1 =
      .error (match codec.parseErrorResponse resp.body with
        | some e => .AcquireTokenFailed e
        | none => .InvalidJson ("invalid error body"))) := by
  refine ⟨?_, ?_, ?_, ?_, ?_, ?_⟩
  · unfold PublicClientApplication.acquire_token_by_username_password Wire.send
    simp only [h, Bool.false_eq_true, if_false]
    cases codec.parseErrorResponse resp.body <;> rfl
  · unfold PublicClientApplication.initiate_device_flow Wire.send
    simp only [h, Bool.false_eq_true, if_false]
    cases codec.parseErrorResponse resp.body <;> rfl
  · unfold PublicClientApplication.acquire_token_by_device_flow Wire.send
    simp only [h, Bool.false_eq_true, if_false]
    cases codec.parseErrorResponse resp.body <;> rfl
  · unfold PublicClientApplication.acquire_token_silent Wire.send
    simp only [h, Bool.false_eq_true, if_false]
    cases codec.parseErrorResponse resp.body <;> rfl
  · unfold PublicClientApplication.request_nonce Wire.send
    simp only [h, Bool.false_eq_true, if_false]
    cases codec.parseErrorResponse resp.body <;> rfl
  · unfold PublicClientApplication.acquire_user_prt_jwt Wire.send
    simp only [hload, if_true, hsign, h, Bool.false_eq_true, if_false]
    cases codec.parseErrorResponse resp.body <;> rfl

/-- Concrete application fixture used by witnesses. -/
def witApp : PublicClientApplication :=
  { client_id := "caller-client-id", tenant_id := "contoso",
    authority_host := "login.microsoftonline.com" }

/-- Concrete codec fixture used by witnesses: exactly one body text parses as
ErrorResponse, nonce responses carry the body as the nonce. -/
def witCodec : Codec :=
  { parseErrorResponse := fun b =>
      if b = "structured-error" then some { raw := "structured-error" } else none,
    parseUserToken := fun _ => none,
    parseDeviceAuthorizationResponse := fun _ => none,
    parseNonce := fun b => some b,
    parsePrimaryRefreshToken := fun _ => none }

/-- Concrete signer fixture used by witnesses: loads and signs by echoing the
payload. -/
def witHsm : Hsm :=
  { load_ok := true, sign := fun j => some j.payload }

/-- Concrete device authorization fixture used by witnesses. -/
def witFlow : DeviceAuthorizationResponse :=
  { device_code := "dev-code-1", user_code := "ABCD", verification_uri := "v",
    verification_uri_complete := none, expires_in := 900, interval := none,
    message := none }

/-- Concrete unsigned token fixture used by witnesses. -/
def witJws : Jws :=
  { payload := "x", typ := some ("JWT") }

/-- Witness for C2: on a concrete 400 response, an unparseable body yields
the invalid-response error and a parseable body yields the
acquisition-failed error carrying the payload. -/
theorem c2_non_success_classification_witness :
    isSuccessStatus 400 = false ∧
    witHsm.load_ok = true ∧
    witHsm.sign witJws = some ("x") ∧
    (witApp.acquire_token_by_username_password witCodec ("u") ("p") []
        { script := [some { status := 400, body := "nonsense" }], trace := [] }).1 =
      .error (.InvalidJson ("invalid error body")) ∧
    (witApp.request_nonce witCodec
        { script := [some { status := 400, body := "structured-error" }],
          trace := [] }).1 =
      .error (.AcquireTokenFailed { raw := "structured-error" }) := by
  refine ⟨by decide, rfl, rfl, ?_, ?_⟩
  · have h := c2_non_success_classification witApp witCodec ("u") ("p") ("rt")
      [] witFlow witHsm witJws ("x") { status := 400, body := "nonsense" }
      [] [] [] (by decide) rfl rfl
    exact h.1
  · have h := c2_non_success_classification witApp witCodec ("u") ("p") ("rt")
      [] witFlow witHsm witJws ("x") { status := 400, body := "structured-error" }
      [] [] [] (by decide) rfl rfl
    exact h.2.2.2.2.1

theorem breakAt_of_not_mem (sep : Char) (cs : List Char) (h : sep ∉ cs) :
    breakAt sep cs = (cs, none) := by
  induction cs with
  | nil => rfl
  | cons c cs ih =>
    have hc : ¬ c = sep := fun e => h (e ▸ List.mem_cons_self c cs)
    simp [breakAt, hc, ih (fun m => h (List.mem_cons_of_mem c m))]

theorem splitnChars_of_not_mem (n : Nat) (sep : Char) (cs : List Char)
    (h : sep ∉ cs) : splitnChars (n + 2) sep cs = [String.mk cs] := by
  unfold splitnChars
  rw [breakAt_of_not_mem sep cs h]

theorem rustSplitn_three_of_not_mem (sep : Char) (s : String)
    (h : sep ∉ s.data) : rustSplitn 3 sep s = [s] :=
  splitnChars_of_not_mem 1 sep s.data h

theorem splitnChars_ne_nil (n : Nat) (sep : Char) (cs : List Char) :
    splitnChars (n + 1) sep cs ≠ [] := by
  match n with
  | 0 => simp [splitnChars]
  | m + 1 =>
    unfold splitnChars
    rcases hb : breakAt sep cs with ⟨pre, post⟩
    cases post <;> simp

/-- C4: decoding an identity token whose raw string has no dot at all (hence
fewer than two dot-separated segments) fails with the payload parse error,
for every possible behaviour of the downstream utf8/json step: no partially
populated IdToken is ever produced. -/
theorem c4_id_token_without_payload_segment_fails
    (idTokenFromBytes : List Nat → Option IdToken) (s : String)
    (h : (Char.ofNat 46) ∉ s.data) :
    decode_id_token idTokenFromBytes s =
      .error ("Failed parsing id_token payload") := by
  unfold decode_id_token
  rw [rustSplitn_three_of_not_mem (Char.ofNat 46) s h]

/-- Witness for C4: the dotless string abc is rejected with the payload
parse error. -/
theorem c4_id_token_without_payload_segment_fails_witness :
    ((Char.ofNat 46) ∉ ("abc").data) ∧
      decode_id_token (fun _ => none) ("abc") =
        .error ("Failed parsing id_token payload") :=
  ⟨by decide,
    c4_id_token_without_payload_segment_fails (fun _ => none) ("abc") (by decide)⟩

/-- The part of decode_id_token that only sees the second splitn segment. -/
def decodeFromSeg (idTokenFromBytes : List Nat → Option IdToken) :
    Option String → Except String IdToken
  | none => .error ("Failed parsing id_token payload")
  | some payload_str =>
    match b64UrlDecode payload_str with
    | none => .error ("Failed parsing id_token")
    | some bytes =>
      match idTokenFromBytes bytes with
      | none => .error ("Failed parsing id_token from json")
      | some payload => .ok payload

theorem decode_id_token_eq_seg (idTokenFromBytes : List Nat → Option IdToken)
    (s : String) :
    decode_id_token idTokenFromBytes s =
      decodeFromSeg idTokenFromBytes ((rustSplitn 3 (Char.ofNat 46) s).get? 1) := by
  unfold decode_id_token
  cases h : rustSplitn 3 (Char.ofNat 46) s with
  | nil => exact absurd h (splitnChars_ne_nil 2 (Char.ofNat 46) s.data)
  | cons a rest => cases rest <;> rfl

theorem decodeFromSeg_ne_header (idTokenFromBytes : List Nat → Option IdToken)
    (o : Option String) :
    decodeFromSeg idTokenFromBytes o ≠
      .error ("Failed parsing id_token header") := by
  have hmsg1 : ("Failed parsing id_token payload") ≠ ("Failed parsing id_token header") := by decide
  have hmsg2 : ("Failed parsing id_token") ≠ ("Failed parsing id_token header") := by decide
  have hmsg3 : ("Failed parsing id_token from json") ≠ ("Failed parsing id_token header") := by decide
  cases o with
  | none => exact fun hc => hmsg1 (Except.error.inj hc)
  | some p =>
    show (match b64UrlDecode p with
      | none => (.error ("Failed parsing id_token") : Except String IdToken)
      | some bytes =>
        match idTokenFromBytes bytes with
        | none => .error ("Failed parsing id_token from json")
        | some payload => .ok payload) ≠ .error ("Failed parsing id_token header")
    cases b64UrlDecode p with
    | none => exact fun hc => hmsg2 (Except.error.inj hc)
    | some bytes =>
      show (match idTokenFromBytes bytes with
        | none => (.error ("Failed parsing id_token from json") : Except String IdToken)
        | some payload => .ok payload) ≠ .error ("Failed parsing id_token header")
      cases idTokenFromBytes bytes with
      | none => exact fun hc => hmsg3 (Except.error.inj hc)
      | some payload => exact fun hc => Except.noConfusion hc

/-- C10: splitn always yields at least one segment, so the missing-header
error branch of decode_id_token is unreachable for every input; and the
decode outcome is a function of the text between the first and the second
dot alone - the header segment and anything after the second dot are never
inspected. -/
theorem c10_header_branch_unreachable_and_payload_only
    (idTokenFromBytes : List Nat → Option IdToken) (s t : String) :
    rustSplitn 3 (Char.ofNat 46) s ≠ [] ∧
      decode_id_token idTokenFromBytes s ≠
        .error ("Failed parsing id_token header") ∧
      ((rustSplitn 3 (Char.ofNat 46) s).get? 1 =
          (rustSplitn 3 (Char.ofNat 46) t).get? 1 →
        decode_id_token idTokenFromBytes s = decode_id_token idTokenFromBytes t) := by
  refine ⟨splitnChars_ne_nil 2 (Char.ofNat 46) s.data, ?_, ?_⟩
  · rw [decode_id_token_eq_seg]
    exact decodeFromSeg_ne_header idTokenFromBytes _
  · intro h
    rw [decode_id_token_eq_seg, decode_id_token_eq_seg, h]

/-- Witness for C10: two tokens with equal second segments but different
headers and different trailing segments decode identically. -/
theorem c10_header_branch_unreachable_and_payload_only_witness :
    decode_id_token (fun _ => none) ("a.PAY") =
      decode_id_token (fun _ => none) ("bb.PAY.tail.more") :=
  (c10_header_branch_unreachable_and_payload_only (fun _ => none)
    ("a.PAY") ("bb.PAY.tail.more")).2.2 (by decide)

/-- C1 (amended): the unsigned username/password PRT payload always carries
the fixed broker client id (never the caller client id), the given nonce as
request_nonce, scope openid aza ugs and grant_type password; the win_ver
field is always present, serialised as JSON null when the OS description is
unavailable (it is not omitted), and the payload is the stated function of
username, password, nonce and OS description value alone, hence
byte-identical whenever those agree. -/
theorem c1_username_password_payload_fields (username password nonce : String)
    (os_release : Option OsRelease) :
    (UsernamePasswordAuthenticationPayload.new username password nonce
        os_release).toJson =
      .obj [(("client_id"), .str ("38aa3b87-a06d-4817-b275-7a316988d93b")),
        (("request_nonce"), .str nonce),
        (("scope"), .str ("openid aza ugs")),
        (("win_ver"), match os_release with
          | none => .null
          | some o => .str (o.pretty_name ++ (" ") ++ o.version_id)),
        (("grant_type"), .str ("password")),
        (("username"), .str username),
        (("password"), .str password)] ∧
      (UsernamePasswordAuthenticationPayload.new username password nonce
          none).toJson.index ("win_ver") = JsonValue.null := by
  cases os_release <;> exact ⟨rfl, rfl⟩

set_option maxRecDepth 10000 in
/-- Counterexample for C1 as stated: with the OS description unavailable the
serialised payload still contains the win_ver field (as null) - the field is
not omitted, and the full serialisation at the spec example inputs is shown
byte for byte. -/
theorem c1_win_ver_not_omitted_counterexample :
    List.IsInfix (("\"win_ver\":null").data)
        (((UsernamePasswordAuthenticationPayload.new ("user@contoso.com")
          ("p@ss") ("abc123") none).toJson.render).data) ∧
      (UsernamePasswordAuthenticationPayload.new ("user@contoso.com") ("p@ss")
          ("abc123") none).toJson.render =
        "\x7b\"client_id\":\"38aa3b87-a06d-4817-b275-7a316988d93b\",\"request_nonce\":\"abc123\",\"scope\":\"openid aza ugs\",\"win_ver\":null,\"grant_type\":\"password\",\"username\":\"user@contoso.com\",\"password\":\"p@ss\"\x7d" :=
  ⟨by decide, rfl⟩

theorem acquire_user_prt_jwt_wire (app : PublicClientApplication)
    (codec : Codec) (hsm : Hsm) (jwt : Jws) (w : Wire) (signLog : List Jws)
    (signed_jwt : String)
    (hload : hsm.load_ok = true) (hsign : hsm.sign jwt = some signed_jwt) :
    (app.acquire_user_prt_jwt codec hsm jwt w signLog).2 =
      ({ script := w.script.tail,
         trace := w.trace ++ [prtExchangeRequest app signed_jwt] },
        signLog ++ [jwt]) := by
  unfold PublicClientApplication.acquire_user_prt_jwt Wire.send
  simp only [hload, if_true, hsign]
  rcases w with ⟨script, trace⟩
  rcases script with _ | ⟨s, rest⟩
  · rfl
  · rcases s with _ | resp
    · rfl
    · dsimp only
      split
      · split <;> rfl
      · split <;> rfl

/-- Counterexample for C7 as stated: the nonce challenge POST actually issued
by request_nonce carries no Content-Type and no Accept header at all, and the
PRT jwt-bearer exchange POST carries no Accept header and a body whose values
are not percent-encoded (the grant_type value keeps its raw colons). -/
theorem c7_nonce_and_prt_requests_lack_headers_counterexample :
    ((witApp.request_nonce witCodec { script := [], trace := [] }).2.trace =
        [nonceChallengeRequest witApp]) ∧
      (nonceChallengeRequest witApp).headers = [] ∧
      ((("Content-Type"), ("application/x-www-form-urlencoded")) ∉
        (nonceChallengeRequest witApp).headers) ∧
      ((("Accept"), ("application/json")) ∉ (nonceChallengeRequest witApp).headers) ∧
      ((witApp.acquire_user_prt_jwt witCodec witHsm witJws
          { script := [], trace := [] } []).2.1.trace =
        [prtExchangeRequest witApp ("x")]) ∧
      ((("Accept"), ("application/json")) ∉ (prtExchangeRequest witApp ("x")).headers) ∧
      (prtExchangeRequest witApp ("x")).body ≠
        formEncode [(("windows_api_version"), ("2.0")),
          (("grant_type"), ("urn:ietf:params:oauth:grant-type:jwt-bearer")),
          (("request"), ("x")),
          (("client_info"), ("1")),
          (("tgt"), ("true"))] := by
  refine ⟨rfl, rfl, by decide, by decide, rfl, by decide, by decide⟩

/-- C7 (amended): the four standard-endpoint POSTs (password grant,
device-flow initiation, device-code polling, silent grant) build their bodies
from an ordered parameter list with percent-encoded values and carry both the
Content-Type form header and the Accept json header; the nonce challenge POST
instead sends the fixed raw body grant_type=srv_challenge with no explicit
headers; and the PRT jwt-bearer exchange POST builds its body from an ordered
parameter list without percent-encoding and carries only the Content-Type
header. -/
theorem c7_post_request_shapes (app : PublicClientApplication) (codec : Codec)
    (username password refresh_token : String) (scopes : List String)
    (flow : DeviceAuthorizationResponse) (hsm : Hsm) (jwt : Jws)
    (signed_jwt : String) (w : Wire) (signLog : List Jws)
    (hload : hsm.load_ok = true) (hsign : hsm.sign jwt = some signed_jwt) :
    ((app.acquire_token_by_username_password codec username password scopes w).2.trace =
        w.trace ++ [passwordGrantRequest app username password scopes]) ∧
      ((app.initiate_device_flow codec scopes w).2.trace =
        w.trace ++ [deviceInitRequest app scopes]) ∧
      ((app.acquire_token_by_device_flow codec flow w).2.trace =
        w.trace ++ [deviceCodeTokenRequest app flow]) ∧
      ((app.acquire_token_silent codec scopes refresh_token w).2.trace =
        w.trace ++ [silentGrantRequest app scopes refresh_token]) ∧
      ((app.request_nonce codec w).2.trace =
        w.trace ++ [nonceChallengeRequest app]) ∧
      ((app.acquire_user_prt_jwt codec hsm jwt w signLog).2.1.trace =
        w.trace ++ [prtExchangeRequest app signed_jwt]) ∧
      (passwordGrantRequest app username password scopes).headers =
        [contentTypeFormHeader, acceptJsonHeader] ∧
      (deviceInitRequest app scopes).headers =
        [contentTypeFormHeader, acceptJsonHeader] ∧
      (deviceCodeTokenRequest app flow).headers =
        [contentTypeFormHeader, acceptJsonHeader] ∧
      (silentGrantRequest app scopes refresh_token).headers =
        [contentTypeFormHeader, acceptJsonHeader] ∧
      (nonceChallengeRequest app).headers = [] ∧
      (nonceChallengeRequest app).body = "grant_type=srv_challenge" ∧
      (prtExchangeRequest app signed_jwt).headers = [contentTypeFormHeader] ∧
      (prtExchangeRequest app signed_jwt).body =
        formJoinRaw [(("windows_api_version"), ("2.0")),
          (("grant_type"), ("urn:ietf:params:oauth:grant-type:jwt-bearer")),
          (("request"), signed_jwt),
          (("client_info"), ("1")),
          (("tgt"), ("true"))] := by
  refine ⟨congrArg Wire.trace
      (acquire_token_by_username_password_wire app codec username password scopes w),
    congrArg Wire.trace (initiate_device_flow_wire app codec scopes w),
    congrArg Wire.trace (acquire_token_by_device_flow_wire app codec flow w),
    congrArg Wire.trace (acquire_token_silent_wire app codec scopes refresh_token w),
    congrArg Wire.trace (request_nonce_wire app codec w),
    ?_, rfl, rfl, rfl, rfl, rfl, rfl, rfl, rfl⟩
  rw [acquire_user_prt_jwt_wire app codec hsm jwt w signLog signed_jwt hload hsign]

/-- Witness for C7 (amended): the request shapes at concrete inputs, with
the signer hypotheses discharged on the concrete fixtures. -/
theorem c7_post_request_shapes_witness :
    witHsm.load_ok = true ∧
      witHsm.sign witJws = some ("x") ∧
      ((witApp.acquire_user_prt_jwt witCodec witHsm witJws
          { script := [], trace := [] } []).2.1.trace =
        [prtExchangeRequest witApp ("x")]) ∧
      (nonceChallengeRequest witApp).headers = [] := by
  have h := c7_post_request_shapes witApp witCodec ("u") ("p") ("rt") []
    witFlow witHsm witJws ("x") { script := [], trace := [] } [] rfl rfl
  exact ⟨rfl, rfl, h.2.2.2.2.2.1, h.2.2.2.2.2.2.2.2.2.2.1⟩

theorem request_nonce_success (app : PublicClientApplication) (codec : Codec)
    (r : HttpResponse) (rest : List (Option HttpResponse)) (tr : List Request)
    (n : String)
    (hs : isSuccessStatus r.status = true) (hn : codec.parseNonce r.body = some n) :
    app.request_nonce codec { script := some r :: rest, trace := tr } =
      (.ok n, { script := rest, trace := tr ++ [nonceChallengeRequest app] }) := by
  unfold PublicClientApplication.request_nonce Wire.send
  simp only [hs, if_true, hn]
  rfl

/-- The unsigned JWT built by acquire_user_prt_by_username_password for a
given nonce. -/
def upJws (username password nonce : String) (os_release : Option OsRelease) : Jws :=
  { payload := (UsernamePasswordAuthenticationPayload.new username password
      nonce os_release).toJson.render,
    typ := some ("JWT") }

/-- The unsigned JWT built by acquire_user_prt_silent for a given nonce. -/
def rtJws (refresh_token nonce : String) (os_release : Option OsRelease) : Jws :=
  { payload := (RefreshTokenAuthenticationPayload.new refresh_token
      nonce os_release).toJson.render,
    typ := some ("JWT") }

theorem prt_username_password_run (app : PublicClientApplication)
    (codec : Codec) (hsm : Hsm) (os_release : Option OsRelease)
    (username password : String) (r : HttpResponse)
    (restScript : List (Option HttpResponse)) (tr : List Request)
    (signLog : List Jws) (n : String) (sig : Jws → String)
    (hs : isSuccessStatus r.status = true)
    (hn : codec.parseNonce r.body = some n)
    (hload : hsm.load_ok = true)
    (hsign : ∀ j, hsm.sign j = some (sig j)) :
    (app.acquire_user_prt_by_username_password codec hsm os_release username
        password { script := some r :: restScript, trace := tr } signLog).2 =
      ({ script := restScript.tail,
         trace := (tr ++ [nonceChallengeRequest app]) ++
           [prtExchangeRequest app (sig (upJws username password n os_release))] },
        signLog ++ [upJws username password n os_release]) := by
  unfold PublicClientApplication.acquire_user_prt_by_username_password
  rw [request_nonce_success app codec r restScript tr n hs hn]
  exact acquire_user_prt_jwt_wire app codec hsm (upJws username password n os_release)
    { script := restScript, trace := tr ++ [nonceChallengeRequest app] }
    signLog (sig (upJws username password n os_release)) hload
    (hsign (upJws username password n os_release))

theorem prt_silent_run (app : PublicClientApplication)
    (codec : Codec) (hsm : Hsm) (os_release : Option OsRelease)
    (refresh_token : String) (r : HttpResponse)
    (restScript : List (Option HttpResponse)) (tr : List Request)
    (signLog : List Jws) (n : String) (sig : Jws → String)
    (hs : isSuccessStatus r.status = true)
    (hn : codec.parseNonce r.body = some n)
    (hload : hsm.load_ok = true)
    (hsign : ∀ j, hsm.sign j = some (sig j)) :
    (app.acquire_user_prt_silent codec hsm os_release refresh_token
        { script := some r :: restScript, trace := tr } signLog).2 =
      ({ script := restScript.tail,
         trace := (tr ++ [nonceChallengeRequest app]) ++
           [prtExchangeRequest app (sig (rtJws refresh_token n os_release))] },
        signLog ++ [rtJws refresh_token n os_release]) := by
  unfold PublicClientApplication.acquire_user_prt_silent
  rw [request_nonce_success app codec r restScript tr n hs hn]
  exact acquire_user_prt_jwt_wire app codec hsm (rtJws refresh_token n os_release)
    { script := restScript, trace := tr ++ [nonceChallengeRequest app] }
    signLog (sig (rtJws refresh_token n os_release)) hload
    (hsign (rtJws refresh_token n os_release))

/-- C3: each PRT entry point issues its own nonce challenge request first and
builds the signed payload from the nonce of that very response, so two
sequential attempts (username/password, and likewise silent/refresh-token)
produce two nonce challenge requests on the wire and sign payloads carrying
the first and the second server nonce respectively - nonces are never reused
or cached across attempts. -/
theorem c3_fresh_nonce_per_prt_attempt (app : PublicClientApplication)
    (codec : Codec) (hsm : Hsm)
    (os_release : Option OsRelease) (username password refresh_token : String)
    (r1 r2 : HttpResponse) (e1 : Option HttpResponse)
    (rest : List (Option HttpResponse)) (tr : List Request)
    (signLog : List Jws) (n1 n2 : String) (sig : Jws → String)
    (h1 : isSuccessStatus r1.status = true)
    (hn1 : codec.parseNonce r1.body = some n1)
    (h2 : isSuccessStatus r2.status = true)
    (hn2 : codec.parseNonce r2.body = some n2)
    (hload : hsm.load_ok = true)
    (hsign : ∀ j, hsm.sign j = some (sig j)) :
    ((app.acquire_user_prt_by_username_password codec hsm os_release username password
        (app.acquire_user_prt_by_username_password codec hsm os_release username
          password { script := some r1 :: e1 :: some r2 :: rest, trace := tr }
          signLog).2.1
        (app.acquire_user_prt_by_username_password codec hsm os_release username
          password { script := some r1 :: e1 :: some r2 :: rest, trace := tr }
          signLog).2.2).2 =
      ({ script := rest.tail,
         trace := tr ++ [nonceChallengeRequest app,
           prtExchangeRequest app (sig (upJws username password n1 os_release)),
           nonceChallengeRequest app,
           prtExchangeRequest app (sig (upJws username password n2 os_release))] },
        signLog ++ [upJws username password n1 os_release,
          upJws username password n2 os_release])) ∧
    ((app.acquire_user_prt_silent codec hsm os_release refresh_token
        (app.acquire_user_prt_silent codec hsm os_release refresh_token
          { script := some r1 :: e1 :: some r2 :: rest, trace := tr }
          signLog).2.1
        (app.acquire_user_prt_silent codec hsm os_release refresh_token
          { script := some r1 :: e1 :: some r2 :: rest, trace := tr }
          signLog).2.2).2 =
      ({ script := rest.tail,
         trace := tr ++ [nonceChallengeRequest app,
           prtExchangeRequest app (sig (rtJws refresh_token n1 os_release)),
           nonceChallengeRequest app,
           prtExchangeRequest app (sig (rtJws refresh_token n2 os_release))] },
        signLog ++ [rtJws refresh_token n1 os_release,
          rtJws refresh_token n2 os_release])) := by
  constructor
  · have hrun1 := prt_username_password_run app codec hsm os_release username password
      r1 (e1 :: some r2 :: rest) tr signLog n1 sig h1 hn1 hload hsign
    have e1w : (app.acquire_user_prt_by_username_password codec hsm os_release username
        password { script := some r1 :: e1 :: some r2 :: rest, trace := tr }
        signLog).2.1 =
        { script := some r2 :: rest,
          trace := tr ++ [nonceChallengeRequest app,
            prtExchangeRequest app (sig (upJws username password n1 os_release))] } := by
      rw [hrun1]
      simp
    have e1l : (app.acquire_user_prt_by_username_password codec hsm os_release username
        password { script := some r1 :: e1 :: some r2 :: rest, trace := tr }
        signLog).2.2 = signLog ++ [upJws username password n1 os_release] := by
      rw [hrun1]
    rw [e1w, e1l]
    rw [prt_username_password_run app codec hsm os_release username password
      r2 rest (tr ++ [nonceChallengeRequest app,
        prtExchangeRequest app (sig (upJws username password n1 os_release))])
      (signLog ++ [upJws username password n1 os_release]) n2 sig h2 hn2 hload hsign]
    simp
  · have hrun1 := prt_silent_run app codec hsm os_release refresh_token
      r1 (e1 :: some r2 :: rest) tr signLog n1 sig h1 hn1 hload hsign
    have e1w : (app.acquire_user_prt_silent codec hsm os_release refresh_token
        { script := some r1 :: e1 :: some r2 :: rest, trace := tr }
        signLog).2.1 =
        { script := some r2 :: rest,
          trace := tr ++ [nonceChallengeRequest app,
            prtExchangeRequest app (sig (rtJws refresh_token n1 os_release))] } := by
      rw [hrun1]
      simp
    have e1l : (app.acquire_user_prt_silent codec hsm os_release refresh_token
        { script := some r1 :: e1 :: some r2 :: rest, trace := tr }
        signLog).2.2 = signLog ++ [rtJws refresh_token n1 os_release] := by
      rw [hrun1]
    rw [e1w, e1l]
    rw [prt_silent_run app codec hsm os_release refresh_token
      r2 rest (tr ++ [nonceChallengeRequest app,
        prtExchangeRequest app (sig (rtJws refresh_token n1 os_release))])
      (signLog ++ [rtJws refresh_token n1 os_release]) n2 sig h2 hn2 hload hsign]
    simp

/-- Witness for C3: two concrete sequential username/password PRT attempts
issue two nonce challenge requests and sign payloads carrying nonce-one and
nonce-two respectively. -/
theorem c3_fresh_nonce_per_prt_attempt_witness :
    (witApp.acquire_user_prt_by_username_password witCodec witHsm none ("u") ("p")
        (witApp.acquire_user_prt_by_username_password witCodec witHsm none ("u") ("p")
          { script := [some { status := 200, body := "nonce-one" }, none,
              some { status := 200, body := "nonce-two" }], trace := [] } []).2.1
        (witApp.acquire_user_prt_by_username_password witCodec witHsm none ("u") ("p")
          { script := [some { status := 200, body := "nonce-one" }, none,
              some { status := 200, body := "nonce-two" }], trace := [] } []).2.2).2 =
      ({ script := [],
         trace := [nonceChallengeRequest witApp,
           prtExchangeRequest witApp ((upJws ("u") ("p") ("nonce-one") none).payload),
           nonceChallengeRequest witApp,
           prtExchangeRequest witApp ((upJws ("u") ("p") ("nonce-two") none).payload)] },
        [upJws ("u") ("p") ("nonce-one") none, upJws ("u") ("p") ("nonce-two") none]) :=
  (c3_fresh_nonce_per_prt_attempt witApp witCodec witHsm none ("u") ("p") ("rt")
    { status := 200, body := "nonce-one" } { status := 200, body := "nonce-two" }
    none [] [] [] ("nonce-one") ("nonce-two") (fun j => j.payload)
    (by decide) rfl (by decide) rfl rfl (fun j => rfl)).1

theorem hexVal_range (c : Char) (d : Nat) (h : hexVal c = some d) :
    (48 ≤ c.toNat ∧ c.toNat ≤ 57) ∨ (97 ≤ c.toNat ∧ c.toNat ≤ 102) ∨
      (65 ≤ c.toNat ∧ c.toNat ≤ 70) := by
  unfold hexVal at h
  dsimp only at h
  repeat' split at h
  all_goals first
  | (rename_i hcond
     simp only [Bool.and_eq_true, decide_eq_true_eq] at hcond
     omega)
  | simp at h

theorem jsonEscapeChar_eq_self (c : Char) (h1 : 32 ≤ c.toNat)
    (h2 : c.toNat ≠ 34) (h3 : c.toNat ≠ 92) :
    jsonEscapeChar c = String.mk [c] := by
  unfold jsonEscapeChar
  dsimp only
  repeat' split
  all_goals first | rfl | (exfalso; omega)

theorem takeHex_decomp (n : Nat) (cs : List Char) (v : Nat) (rest : List Char)
    (h : takeHex n cs = some (v, rest)) :
    ∃ pre, cs = pre ++ rest ∧ pre.length = n ∧
      ∀ c ∈ pre, ∃ d, hexVal c = some d := by
  induction n generalizing cs v with
  | zero =>
    unfold takeHex at h
    simp only [Option.some.injEq, Prod.mk.injEq] at h
    exact ⟨[], by simp [h.2], rfl, by simp⟩
  | succ n ih =>
    cases cs with
    | nil => simp [takeHex] at h
    | cons c cs =>
      unfold takeHex at h
      cases hc : hexVal c with
      | none => rw [hc] at h; simp at h
      | some d =>
        rw [hc] at h
        cases ht : takeHex n cs with
        | none => rw [ht] at h; simp at h
        | some p =>
          rw [ht] at h
          rcases p with ⟨v2, rest2⟩
          simp only [Option.some.injEq, Prod.mk.injEq] at h
          obtain ⟨pre, hpre, hlen, hhex⟩ := ih cs v2 (by rw [ht, h.2])
          refine ⟨c :: pre, by simp [hpre], by simp [hlen], ?_⟩
          intro x hx
          rcases List.mem_cons.mp hx with hx | hx
          · exact ⟨d, hx ▸ hc⟩
          · exact hhex x hx

theorem expectChar_decomp (x : Char) (cs cs2 : List Char)
    (h : expectChar x cs = some cs2) : cs = x :: cs2 := by
  cases cs with
  | nil => simp [expectChar] at h
  | cons c cs =>
    rw [show expectChar x (c :: cs) = if c = x then some cs else none from rfl] at h
    by_cases hc : c = x
    · rw [if_pos hc] at h
      simp only [Option.some.injEq] at h
      rw [hc, h]
    · rw [if_neg hc] at h
      simp at h

theorem uuidParseHyphenated_chars (cs : List Char) (v : Nat)
    (h : uuidParseHyphenated cs = some v) :
    cs.length = 36 ∧ ∀ c ∈ cs, (∃ d, hexVal c = some d) ∨ c = Char.ofNat 45 := by
  unfold uuidParseHyphenated at h
  split at h
  next => simp at h
  next a cs1 heq1 =>
  split at h
  next => simp at h
  next cs2 heq2 =>
  split at h
  next => simp at h
  next b cs3 heq3 =>
  split at h
  next => simp at h
  next cs4 heq4 =>
  split at h
  next => simp at h
  next c cs5 heq5 =>
  split at h
  next => simp at h
  next cs6 heq6 =>
  split at h
  next => simp at h
  next d cs7 heq7 =>
  split at h
  next => simp at h
  next cs8 heq8 =>
  split at h
  next => simp at h
  next e cs9 heq9 =>
  split at h
  next h9nil =>
    obtain ⟨g1, hg1, hl1, hx1⟩ := takeHex_decomp 8 cs a cs1 heq1
    have hc1 := expectChar_decomp (Char.ofNat 45) cs1 cs2 heq2
    obtain ⟨g2, hg2, hl2, hx2⟩ := takeHex_decomp 4 cs2 b cs3 heq3
    have hc2 := expectChar_decomp (Char.ofNat 45) cs3 cs4 heq4
    obtain ⟨g3, hg3, hl3, hx3⟩ := takeHex_decomp 4 cs4 c cs5 heq5
    have hc3 := expectChar_decomp (Char.ofNat 45) cs5 cs6 heq6
    obtain ⟨g4, hg4, hl4, hx4⟩ := takeHex_decomp 4 cs6 d cs7 heq7
    have hc4 := expectChar_decomp (Char.ofNat 45) cs7 cs8 heq8
    obtain ⟨g5, hg5, hl5, hx5⟩ := takeHex_decomp 12 cs8 e cs9 heq9
    subst hc1 hc2 hc3 hc4 h9nil
    subst hg1 hg2 hg3 hg4 hg5
    constructor
    · simp [hl1, hl2, hl3, hl4, hl5]
    · intro x hx
      simp only [List.append_nil, List.mem_append, List.mem_cons] at hx
      rcases hx with hx | hx | hx | hx | hx | hx | hx | hx | hx
      · exact Or.inl (hx1 x hx)
      · exact Or.inr hx
      · exact Or.inl (hx2 x hx)
      · exact Or.inr hx
      · exact Or.inl (hx3 x hx)
      · exact Or.inr hx
      · exact Or.inl (hx4 x hx)
      · exact Or.inr hx
      · exact Or.inl (hx5 x hx)
  next => simp at h

theorem uuidParseSimple_chars (cs : List Char) (v : Nat)
    (h : uuidParseSimple cs = some v) :
    cs.length = 32 ∧ ∀ c ∈ cs, ∃ d, hexVal c = some d := by
  unfold uuidParseSimple at h
  split at h
  next => simp at h
  next w rest heq =>
  split at h
  next hnil =>
    obtain ⟨pre, hpre, hlen, hhex⟩ := takeHex_decomp 32 cs w rest heq
    subst hnil
    rw [List.append_nil] at hpre
    subst hpre
    exact ⟨hlen, hhex⟩
  next => simp at h

/-- Characters that serde_json renders verbatim and that are not the quote
character: printable, not the quote, not the backslash. -/
def jsonPlainChar (c : Char) : Prop :=
  32 ≤ c.toNat ∧ c.toNat ≠ 34 ∧ c.toNat ≠ 92

instance (c : Char) : Decidable (jsonPlainChar c) := by
  unfold jsonPlainChar
  infer_instance

theorem hexVal_plain (c : Char) (d : Nat) (h : hexVal c = some d) :
    jsonPlainChar c := by
  rcases hexVal_range c d h with h1 | h1 | h1 <;>
    exact ⟨by omega, by omega, by omega⟩

theorem uuidParseHyphenated_plain (cs : List Char) (v : Nat)
    (h : uuidParseHyphenated cs = some v) :
    cs ≠ [] ∧ ∀ c ∈ cs, jsonPlainChar c := by
  obtain ⟨hlen, hmem⟩ := uuidParseHyphenated_chars cs v h
  constructor
  · intro hnil
    rw [hnil] at hlen
    simp at hlen
  · intro c hc
    rcases hmem c hc with ⟨d, hd⟩ | hdash
    · exact hexVal_plain c d hd
    · rw [hdash]
      exact ⟨by decide, by decide, by decide⟩

theorem uuidParseBraced_plain (cs : List Char) (v : Nat)
    (h : uuidParseBraced cs = some v) :
    cs ≠ [] ∧ ∀ c ∈ cs, jsonPlainChar c := by
  unfold uuidParseBraced at h
  cases cs with
  | nil => simp at h
  | cons c rest =>
    dsimp only at h
    split at h
    next hopen =>
      cases hlast : rest.getLast? with
      | none => rw [hlast] at h; simp at h
      | some d =>
        rw [hlast] at h
        dsimp only at h
        split at h
        next hclose =>
          obtain ⟨hne, hmem⟩ := uuidParseHyphenated_plain rest.dropLast v h
          refine ⟨by simp, ?_⟩
          intro x hx
          rcases List.mem_cons.mp hx with hx | hx
          · rw [hx]
            refine ⟨by omega, by omega, by omega⟩
          · have hrest : rest ≠ [] := by
              intro hnil
              rw [hnil] at hlast
              simp at hlast
            have hdecomp := List.dropLast_append_getLast hrest
            have hdval : rest.getLast hrest = d := by
              have := List.getLast?_eq_getLast rest hrest
              rw [hlast] at this
              exact (Option.some.inj this).symm
            rw [← hdecomp] at hx
            rcases List.mem_append.mp hx with hx | hx
            · exact hmem x hx
            · have hxd : x = d := by
                rcases List.mem_singleton.mp hx with h
                rw [hdval] at h
                exact h
              rw [hxd]
              refine ⟨by omega, by omega, by omega⟩
        next => simp at h
    next => simp at h

theorem uuidParseUrn_plain (cs : List Char) (v : Nat)
    (h : uuidParseUrn cs = some v) :
    cs ≠ [] ∧ ∀ c ∈ cs, jsonPlainChar c := by
  unfold uuidParseUrn at h
  split at h
  next htake =>
    obtain ⟨hne, hmem⟩ := uuidParseHyphenated_plain (cs.drop 9) v h
    constructor
    · intro hnil
      rw [hnil] at htake
      simp at htake
    · intro x hx
      rw [← List.take_append_drop 9 cs] at hx
      rcases List.mem_append.mp hx with hx | hx
      · rw [htake] at hx
        have : ∀ c ∈ ("urn:uuid:").data, jsonPlainChar c := by decide
        exact this x hx
      · exact hmem x hx
  next => simp at h

theorem strData_append (a b : String) : (a ++ b).data = a.data ++ b.data := rfl

theorem jsonEscapeList_plain (cs : List Char) (h : ∀ c ∈ cs, jsonPlainChar c) :
    jsonEscapeList cs = String.mk cs := by
  induction cs with
  | nil => rfl
  | cons c cs ih =>
    obtain ⟨h1, h2, h3⟩ := h c (List.mem_cons_self c cs)
    rw [show jsonEscapeList (c :: cs) = jsonEscapeChar c ++ jsonEscapeList cs from rfl,
      jsonEscapeChar_eq_self c h1 h2 h3, ih (fun x hx => h x (List.mem_cons_of_mem c hx))]
    rfl

theorem jsonQuote_plain (u : String) (h : ∀ c ∈ u.data, jsonPlainChar c) :
    jsonQuote u = "\"" ++ u ++ "\"" := by
  unfold jsonQuote
  rw [jsonEscapeList_plain u.data h]

theorem dropWhile_eq_of_all_false (p : Char → Bool) (l : List Char)
    (h : ∀ c ∈ l, p c = false) : l.dropWhile p = l := by
  cases l with
  | nil => rfl
  | cons a l =>
    rw [List.dropWhile_cons, h a (List.mem_cons_self a l)]
    simp

theorem rustTrimMatches_quote (u : String) (hne : u.data ≠ [])
    (h : ∀ c ∈ u.data, jsonPlainChar c) :
    rustTrimMatches (Char.ofNat 34) ("\"" ++ u ++ "\"") = u := by
  unfold rustTrimMatches
  have hdata : ("\"" ++ u ++ "\"").data = Char.ofNat 34 :: (u.data ++ [Char.ofNat 34]) := by
    rw [strData_append, strData_append]
    rfl
  rw [hdata]
  rw [List.dropWhile_cons, if_pos (by decide)]
  cases hu : u.data with
  | nil => exact absurd hu hne
  | cons c0 tl =>
    have hc0 : c0 ∈ u.data := by
      rw [hu]
      exact List.mem_cons_self c0 tl
    rw [show (c0 :: tl) ++ [Char.ofNat 34] = c0 :: (tl ++ [Char.ofNat 34]) from rfl]
    rw [List.dropWhile_cons,
      if_neg (by
        simp only [decide_eq_true_eq]
        intro e
        exact (h c0 hc0).2.1 (by rw [e]; rfl))]
    rw [show (c0 :: (tl ++ [Char.ofNat 34])).reverse =
      Char.ofNat 34 :: (c0 :: tl).reverse from by simp]
    rw [List.dropWhile_cons, if_pos (by decide)]
    rw [dropWhile_eq_of_all_false _ _ (by
      intro c hc
      rw [List.mem_reverse] at hc
      simp only [decide_eq_false_iff_not]
      intro e
      exact (h c (hu ▸ hc)).2.1 (by rw [e]; rfl))]
    rw [List.reverse_reverse]
    rw [← hu]

theorem uuidParseSimple_plain (cs : List Char) (v : Nat)
    (h : uuidParseSimple cs = some v) :
    cs ≠ [] ∧ ∀ c ∈ cs, jsonPlainChar c := by
  obtain ⟨hlen, hmem⟩ := uuidParseSimple_chars cs v h
  constructor
  · intro hnil
    rw [hnil] at hlen
    simp at hlen
  · intro c hc
    obtain ⟨d, hd⟩ := hmem c hc
    exact hexVal_plain c d hd

theorem uuid_parse_str_plain (u : String) (v : Nat)
    (h : Uuid.parse_str u = some v) :
    u.data ≠ [] ∧ ∀ c ∈ u.data, jsonPlainChar c := by
  unfold Uuid.parse_str at h
  dsimp only at h
  split at h
  · exact uuidParseSimple_plain u.data v h
  · split at h
    · exact uuidParseHyphenated_plain u.data v h
    · split at h
      · exact uuidParseBraced_plain u.data v h
      · split at h
        · exact uuidParseUrn_plain u.data v h
        · simp at h

theorem trim_render_str_of_parse (u : String) (v : Nat)
    (h : Uuid.parse_str u = some v) :
    rustTrimMatches (Char.ofNat 34) ((JsonValue.str u).render) = u := by
  obtain ⟨hne, hplain⟩ := uuid_parse_str_plain u v h
  rw [show (JsonValue.str u).render = jsonQuote u from rfl,
    jsonQuote_plain u hplain]
  exact rustTrimMatches_quote u hne hplain

/-- C5: decoding client-info fails whenever the decoded JSON lacks the uid
field or the utid field (the missing field indexes to JSON null, which never
parses as a uuid), and whenever the uid or utid text is not a valid uuid;
and for every blob that base64url-decodes to bytes whose JSON is exactly the
two-field object with valid uuid strings, decoding succeeds and the resulting
ClientInfo carries exactly those two uuids. -/
theorem c5_client_info_decode_requirements (jfb : List Nat → Option JsonValue) (s : String)
    (bytes : List Nat) (v : JsonValue) (u t : String) (uu tt : Nat) :
    (b64UrlDecode s = some bytes → jfb bytes = some v →
      (v.index ("uid") = JsonValue.null ∨ v.index ("utid") = JsonValue.null) →
      ∃ msg, decode_client_info jfb s = .error msg) ∧
    (b64UrlDecode s = some bytes → jfb bytes = some v →
      (Uuid.parse_str (rustTrimMatches (Char.ofNat 34) ((v.index ("uid")).render)) = none ∨
        Uuid.parse_str (rustTrimMatches (Char.ofNat 34) ((v.index ("utid")).render)) = none) →
      ∃ msg, decode_client_info jfb s = .error msg) ∧
    (b64UrlDecode s = some bytes →
      jfb bytes = some (.obj [(("uid"), .str u), (("utid"), .str t)]) →
      Uuid.parse_str u = some uu → Uuid.parse_str t = some tt →
      decode_client_info jfb s = .ok { uid := some uu, utid := some tt }) := by
  have hnull : Uuid.parse_str (rustTrimMatches (Char.ofNat 34)
      (JsonValue.null.render)) = none := by decide
  have hinv : ∀ (hb : b64UrlDecode s = some bytes) (hj : jfb bytes = some v),
      (Uuid.parse_str (rustTrimMatches (Char.ofNat 34) ((v.index ("uid")).render)) = none ∨
        Uuid.parse_str (rustTrimMatches (Char.ofNat 34) ((v.index ("utid")).render)) = none) →
      ∃ msg, decode_client_info jfb s = .error msg := by
    intro hb hj hbad
    unfold decode_client_info
    simp only [hb, hj]
    cases hpu : Uuid.parse_str (rustTrimMatches (Char.ofNat 34)
        ((v.index ("uid")).render)) with
    | none => exact ⟨("Failed parsing client_info uid"), rfl⟩
    | some uid0 =>
      rcases hbad with hbad | hbad
      · exact absurd hpu (by rw [hbad]; simp)
      · rw [hbad]
        exact ⟨("Failed parsing client_info utid"), rfl⟩
  refine ⟨?_, hinv, ?_⟩
  · intro hb hj hnull2
    refine hinv hb hj ?_
    rcases hnull2 with hn | hn
    · left
      rw [hn]
      exact hnull
    · right
      rw [hn]
      exact hnull
  · intro hb hj hu ht
    unfold decode_client_info
    simp only [hb, hj]
    have hidx_u : (JsonValue.obj [(("uid"), JsonValue.str u),
        (("utid"), JsonValue.str t)]).index ("uid") = JsonValue.str u := rfl
    have hidx_t : (JsonValue.obj [(("uid"), JsonValue.str u),
        (("utid"), JsonValue.str t)]).index ("utid") = JsonValue.str t := rfl
    rw [hidx_u, hidx_t, trim_render_str_of_parse u uu hu,
      trim_render_str_of_parse t tt ht, hu, ht]

/-- Bytes of the concrete client-info JSON blob used by the C5 witness. -/
def witClientInfoBytes : List Nat :=
  [123, 34, 117, 105, 100, 34, 58, 34, 49, 49, 49, 49, 49, 49, 49, 49, 45,
   50, 50, 50, 50, 45, 51, 51, 51, 51, 45, 52, 52, 52, 52, 45, 53, 53, 53,
   53, 53, 53, 53, 53, 53, 53, 53, 53, 34, 44, 34, 117, 116, 105, 100, 34,
   58, 34, 97, 97, 97, 97, 97, 97, 97, 97, 45, 98, 98, 98, 98, 45, 99, 99,
   99, 99, 45, 100, 100, 100, 100, 45, 101, 101, 101, 101, 101, 101, 101,
   101, 101, 101, 101, 101, 34, 125]

/-- Unpadded base64url encoding of witClientInfoBytes. -/
def witClientInfoB64 : String :=
  "eyJ1aWQiOiIxMTExMTExMS0yMjIyLTMzMzMtNDQ0NC01NTU1NTU1NTU1NTUiLCJ1dGlkIjoiYWFhYWFhYWEtYmJiYi1jY2NjLWRkZGQtZWVlZWVlZWVlZWVlIn0"

/-- Concrete external JSON parse for the C5 success witness. -/
def witJfb : List Nat → Option JsonValue := fun bs =>
  if bs = witClientInfoBytes then
    some (JsonValue.obj
      [(("uid"), JsonValue.str ("11111111-2222-3333-4444-555555555555")),
       (("utid"), JsonValue.str ("aaaaaaaa-bbbb-cccc-dddd-eeeeeeeeeeee"))])
  else none

/-- Concrete external JSON parse returning an object without utid, for the
C5 missing-field witness. -/
def witJfbMissing : List Nat → Option JsonValue := fun bs =>
  if bs = witClientInfoBytes then
    some (JsonValue.obj
      [(("uid"), JsonValue.str ("11111111-2222-3333-4444-555555555555"))])
  else none

set_option maxRecDepth 40000 in
/-- Witness for C5: the concrete two-uuid blob decodes to exactly its two
uuids, and the same blob under a parse lacking utid fails. -/
theorem c5_client_info_decode_requirements_witness :
    (∃ msg, decode_client_info witJfbMissing witClientInfoB64 = .error msg) ∧
      decode_client_info witJfb witClientInfoB64 =
        .ok { uid := some 22685491133344522328127039013544875349,
              utid := some 226854911285907600406151803472605802222 } := by
  constructor
  · exact (c5_client_info_decode_requirements witJfbMissing witClientInfoB64
      witClientInfoBytes
      (JsonValue.obj
        [(("uid"), JsonValue.str ("11111111-2222-3333-4444-555555555555"))])
      ("") ("") 0 0).1 (by decide) rfl (Or.inr rfl)
  · exact (c5_client_info_decode_requirements witJfb witClientInfoB64
      witClientInfoBytes
      (JsonValue.obj
        [(("uid"), JsonValue.str ("11111111-2222-3333-4444-555555555555")),
         (("utid"), JsonValue.str ("aaaaaaaa-bbbb-cccc-dddd-eeeeeeeeeeee"))])
      ("11111111-2222-3333-4444-555555555555")
      ("aaaaaaaa-bbbb-cccc-dddd-eeeeeeeeeeee")
      22685491133344522328127039013544875349
      226854911285907600406151803472605802222).2.2 (by decide) rfl
      (by decide) (by decide)
